import Mathlib

/-!
Verification of the drawing-to-painting orchestration layer.

Shallow embedding of the prompt-composition, parameter-resolution and
backend-dispatch logic of the repository:
  - `src/enhanced_theme_system.py` (theme catalog, `get_theme_info`,
    `get_enhanced_prompts_for_theme`);
  - `src/frontend/app.py` (`PRESET_PARAMETERS`, `get_parameters_from_preset`,
    the prompt construction inside `call_enhanced_controlnet_api`, the
    negative-prompt handling of `call_kaggle_sdxl_api`, the context-exclusion
    scan of the guided-generation block, and the retry/fallback loops of the
    backend-calling functions).

Python strings become `String`, floats become `ℚ`, dictionaries become
association lists where a failed lookup models `KeyError`, network calls
become oracle parameters giving the outcome of each attempt, and the
Streamlit side effects (`st.error`, `st.warning`, `time.sleep`, `st.stop`)
become entries of an explicit event trace or boolean diagnostic flags.
-/

/-- Boolean test that `pat` occurs as a contiguous substring of `s`,
modelling the Python expression `pat in s` on strings. -/
def strContains (s pat : String) : Bool := decide (pat.data <:+: s.data)

/-- Lower-casing of a string, modelling the Python method `s.lower()`
(character-wise, which agrees with Python on the ASCII text used here). -/
def pyLower (s : String) : String := ⟨s.data.map Char.toLower⟩

/-- Prop form of the substring test, used to state properties. -/
abbrev StrContains (s pat : String) : Prop := pat.data <:+: s.data

/-- Prop stating that `s` starts with the string `pre` verbatim. -/
abbrev StrStarts (pre s : String) : Prop := pre.data <+: s.data

/-- Prop stating that `s` ends with the string `suf` verbatim. -/
abbrev StrEnds (suf s : String) : Prop := suf.data <:+ s.data

/-- Lookup in an association list with string keys, modelling a Python
dictionary index `d[k]`; `none` models `KeyError`. -/
def dictFind {α : Type} (l : List (String × α)) (k : String) : Option α :=
  (l.find? (fun p => p.1 == k)).map Prod.snd

/-- Record for one entry of `THEME_DESCRIPTIONS` in
`src/enhanced_theme_system.py`. -/
structure ThemeInfo where
  description : String
  style : String
  positive_prompt : String
  negative_prompt : String
deriving DecidableEq, Repr

/-- The theme catalog `THEME_DESCRIPTIONS` of `src/enhanced_theme_system.py`,
mapping each theme name to its description, style class and prompt
fragments. -/
def THEME_DESCRIPTIONS : List (String × ThemeInfo) := [
  ("Realistic portrait, professional photography, natural skin, detailed features, studio background, sharp focus, beautiful",
   ⟨"Professional photography with natural skin texture and detailed facial features",
    "realistic",
    "realistic portrait, professional photography, natural skin, detailed features, studio background, sharp focus, beautiful",
    "cartoon, anime, illustration, painting, drawing, sketch, unrealistic, deformed"⟩),
  ("Professional headshot, natural lighting, studio background, sharp focus, high resolution, detailed facial features",
   ⟨"Corporate headshot style with natural lighting and high resolution",
    "realistic",
    "professional headshot, natural lighting, studio background, sharp focus, high resolution, detailed facial features",
    "cartoon, anime, illustration, painting, drawing, sketch, unrealistic, deformed"⟩),
  ("Studio photography, natural lighting, detailed face, professional camera, sharp focus, beautiful features, high quality",
   ⟨"Studio photography with natural lighting and professional camera quality",
    "realistic",
    "studio photography, natural lighting, detailed face, professional camera, sharp focus, beautiful features, high quality",
    "cartoon, anime, illustration, painting, drawing, sketch, unrealistic, deformed"⟩),
  ("High fashion portrait, professional photography, natural skin texture, detailed eyes, natural hair, studio lighting, 4k quality",
   ⟨"High fashion magazine style with 4K quality and detailed features",
    "realistic",
    "high fashion portrait, professional photography, natural skin texture, detailed eyes, natural hair, studio lighting, 4k quality",
    "cartoon, anime, illustration, painting, drawing, sketch, unrealistic, deformed"⟩),
  ("Celebrity style portrait, professional photography, natural skin, detailed features, studio background, sharp focus, beautiful",
   ⟨"Celebrity magazine style with professional photography",
    "realistic",
    "celebrity style portrait, professional photography, natural skin, detailed features, studio background, sharp focus, beautiful",
    "cartoon, anime, illustration, painting, drawing, sketch, unrealistic, deformed"⟩),
  ("Magazine cover portrait, natural lighting, detailed face, professional camera, sharp focus, beautiful features, high quality",
   ⟨"Magazine cover style with professional camera and sharp focus",
    "realistic",
    "magazine cover portrait, natural lighting, detailed face, professional camera, sharp focus, beautiful features, high quality",
    "cartoon, anime, illustration, painting, drawing, sketch, unrealistic, deformed"⟩),
  ("Artistic portrait, professional photography, natural skin texture, detailed eyes, natural hair, studio lighting, 4k quality",
   ⟨"Artistic photography with natural skin texture and detailed features",
    "realistic",
    "artistic portrait, professional photography, natural skin texture, detailed eyes, natural hair, studio lighting, 4k quality",
    "cartoon, anime, illustration, painting, drawing, sketch, unrealistic, deformed"⟩),
  ("Cinematic portrait, natural lighting, detailed face, professional camera, sharp focus, beautiful features, high quality",
   ⟨"Cinematic movie style with dramatic lighting and professional quality",
    "realistic",
    "cinematic portrait, natural lighting, detailed face, professional camera, sharp focus, beautiful features, high quality",
    "cartoon, anime, illustration, painting, drawing, sketch, unrealistic, deformed"⟩),
  ("Vintage portrait, professional photography, natural skin, detailed features, studio background, sharp focus, beautiful",
   ⟨"Vintage photography style with classic studio lighting",
    "realistic",
    "vintage portrait, professional photography, natural skin, detailed features, studio background, sharp focus, beautiful",
    "cartoon, anime, illustration, painting, drawing, sketch, unrealistic, deformed"⟩),
  ("Modern portrait, natural lighting, detailed face, professional camera, sharp focus, beautiful features, high quality",
   ⟨"Modern photography style with natural lighting and professional camera",
    "realistic",
    "modern portrait, natural lighting, detailed face, professional camera, sharp focus, beautiful features, high quality",
    "cartoon, anime, illustration, painting, drawing, sketch, unrealistic, deformed"⟩),
  ("Van Gogh style",
   ⟨"Post-impressionist painting style with bold colors and expressive brushstrokes",
    "cartoon",
    "Van Gogh style painting, post-impressionist, bold colors, expressive brushstrokes, artistic",
    "realistic, photograph, modern, clean, smooth"⟩),
  ("Cartoon version",
   ⟨"Classic cartoon style with bold outlines and vibrant colors",
    "cartoon",
    "cartoon style, bold outlines, vibrant colors, animated, stylized",
    "realistic, photograph, detailed, natural"⟩),
  ("Turn into a cyborg",
   ⟨"Sci-fi cyborg style with mechanical parts and futuristic elements",
    "cartoon",
    "cyborg, sci-fi, mechanical parts, futuristic, robotic, metallic",
    "realistic, natural, organic, human"⟩),
  ("Watercolor painting",
   ⟨"Soft watercolor painting style with flowing colors and artistic texture",
    "cartoon",
    "watercolor painting, soft colors, flowing, artistic, painterly",
    "realistic, photograph, sharp, digital"⟩),
  ("Anime style",
   ⟨"Japanese anime style with large eyes and stylized features",
    "cartoon",
    "anime style, Japanese animation, large eyes, stylized features, vibrant colors",
    "realistic, photograph, natural, detailed"⟩),
  ("Futuristic robot",
   ⟨"Futuristic robot design with metallic surfaces and advanced technology",
    "cartoon",
    "futuristic robot, metallic, advanced technology, sci-fi, mechanical",
    "realistic, human, natural, organic"⟩),
  ("Old photo",
   ⟨"Vintage photograph style with sepia tones and aged appearance",
    "realistic",
    "vintage photograph, sepia tones, aged, nostalgic, classic",
    "modern, digital, colorful, sharp"⟩),
  ("Pop art",
   ⟨"Pop art style with bold colors and graphic design elements",
    "cartoon",
    "pop art style, bold colors, graphic design, Andy Warhol inspired",
    "realistic, natural, subtle, muted"⟩),
  ("Impressionist painting",
   ⟨"Impressionist painting style with visible brushstrokes and light effects",
    "cartoon",
    "impressionist painting, visible brushstrokes, light effects, artistic",
    "realistic, photograph, sharp, detailed"⟩),
  ("Disney animation style",
   ⟨"Classic Disney animation style with charming and magical appearance",
    "cartoon",
    "Disney animation style, charming, magical, colorful, family-friendly",
    "realistic, dark, mature, realistic"⟩),
  ("Studio Ghibli style",
   ⟨"Studio Ghibli animation style with detailed backgrounds and magical atmosphere",
    "cartoon",
    "Studio Ghibli style, magical atmosphere, detailed backgrounds, anime",
    "realistic, photograph, modern, dark"⟩),
  ("Pixar 3D animation",
   ⟨"Pixar 3D animation style with detailed textures and expressive features",
    "cartoon",
    "Pixar 3D animation, detailed textures, expressive features, colorful",
    "realistic, photograph, 2D, flat"⟩),
  ("Realistic humanoid",
   ⟨"Realistic humanoid robot with detailed mechanical features",
    "realistic",
    "realistic humanoid robot, detailed mechanical features, advanced technology",
    "cartoon, anime, stylized, simple"⟩),
  ("Cartoon Network style",
   ⟨"Cartoon Network animation style with bold colors and exaggerated features",
    "cartoon",
    "Cartoon Network style, bold colors, exaggerated features, animated",
    "realistic, natural, subtle, detailed"⟩),
  ("Marvel comic style",
   ⟨"Marvel comic book style with dynamic poses and bold colors",
    "cartoon",
    "Marvel comic style, dynamic poses, bold colors, superhero",
    "realistic, photograph, natural, subtle"⟩),
  ("DC Comics style",
   ⟨"DC Comics style with dramatic lighting and comic book aesthetics",
    "cartoon",
    "DC Comics style, dramatic lighting, comic book, superhero",
    "realistic, photograph, natural, subtle"⟩),
  ("Japanese manga",
   ⟨"Japanese manga style with distinctive black and white artwork",
    "cartoon",
    "Japanese manga style, black and white, distinctive artwork, anime",
    "realistic, photograph, colorful, natural"⟩),
  ("European oil painting",
   ⟨"Classical European oil painting style with rich textures and colors",
    "realistic",
    "European oil painting, classical, rich textures, artistic, masterwork",
    "cartoon, anime, modern, digital"⟩),
  ("Digital art",
   ⟨"Modern digital art style with clean lines and vibrant colors",
    "cartoon",
    "digital art, clean lines, vibrant colors, modern, stylized",
    "realistic, photograph, traditional, natural"⟩),
  ("Steampunk style",
   ⟨"Steampunk aesthetic with Victorian-era mechanical elements",
    "cartoon",
    "steampunk style, Victorian-era, mechanical elements, brass, gears",
    "realistic, modern, clean, simple"⟩),
  ("Cyberpunk aesthetic",
   ⟨"Cyberpunk aesthetic with neon lights and futuristic urban elements",
    "cartoon",
    "cyberpunk aesthetic, neon lights, futuristic, urban, dystopian",
    "realistic, natural, rural, peaceful"⟩),
  ("Fantasy art",
   ⟨"Fantasy art style with magical elements and mystical atmosphere",
    "cartoon",
    "fantasy art, magical elements, mystical atmosphere, enchanted",
    "realistic, modern, mundane, ordinary"⟩),
  ("Sci-fi concept art",
   ⟨"Science fiction concept art with futuristic technology and alien worlds",
    "cartoon",
    "sci-fi concept art, futuristic technology, alien worlds, space",
    "realistic, historical, natural, Earth"⟩),
  ("Horror movie style",
   ⟨"Horror movie aesthetic with dark atmosphere and dramatic lighting",
    "realistic",
    "horror movie style, dark atmosphere, dramatic lighting, suspenseful",
    "bright, cheerful, colorful, safe"⟩),
  ("Romantic painting",
   ⟨"Romantic era painting style with emotional and dramatic elements",
    "realistic",
    "romantic painting, emotional, dramatic, artistic, classical",
    "cartoon, anime, modern, digital"⟩)
]

/-- The function `get_theme_info` of `src/enhanced_theme_system.py`: the
catalog entry when the theme is present, otherwise a default record whose
positive prompt is the theme name itself. -/
def get_theme_info (theme_name : String) : ThemeInfo :=
  match dictFind THEME_DESCRIPTIONS theme_name with
  | some info => info
  | none =>
    ⟨"Custom theme with unique artistic style",
     "realistic",
     theme_name,
     "deformed, extra limbs, multiple faces, mutated hands, blurry, out of focus, low quality"⟩

/-- The function `get_enhanced_prompts_for_theme` of
`src/enhanced_theme_system.py`: returns the enhanced positive prompt, the
enhanced negative prompt and the theme style.  The Python truthiness test
`if user_prompt:` becomes a non-emptiness test. -/
def get_enhanced_prompts_for_theme (theme_name : String)
    (sketch_type : String) (user_prompt : String) :
    String × String × String :=
  let theme_info := get_theme_info theme_name
  if user_prompt ≠ "" then
    if sketch_type == "face" then
      if theme_info.style == "realistic" then
        (user_prompt ++ ", realistic portrait of one person, " ++ theme_info.positive_prompt ++ ", detailed facial features, proper anatomy, single face",
         theme_info.negative_prompt ++ ", deformed, extra limbs, multiple faces, mutated hands, blurry, out of focus, low quality, glitch, split face, extra heads, extra bodies, anatomical error",
         theme_info.style)
      else
        (user_prompt ++ ", anime style portrait, " ++ theme_info.positive_prompt ++ ", stylized features, clean lines, detailed illustration, single face",
         theme_info.negative_prompt ++ ", deformed, extra limbs, multiple faces, mutated hands, blurry, out of focus, low quality, glitch, split face, extra heads, extra bodies, anatomical error, realistic, photograph",
         theme_info.style)
    else
      if theme_info.style == "realistic" then
        (user_prompt ++ ", realistic full body portrait of one person, " ++ theme_info.positive_prompt ++ ", proper anatomy, single figure, natural pose",
         theme_info.negative_prompt ++ ", deformed, extra limbs, multiple faces, mutated hands, blurry, out of focus, low quality, glitch, split face, extra heads, extra bodies, anatomical error, multiple people",
         theme_info.style)
      else
        (user_prompt ++ ", anime style full body portrait, " ++ theme_info.positive_prompt ++ ", stylized features, clean lines, detailed illustration, single figure, dynamic pose",
         theme_info.negative_prompt ++ ", deformed, extra limbs, multiple faces, mutated hands, blurry, out of focus, low quality, glitch, split face, extra heads, extra bodies, anatomical error, multiple people, realistic, photograph",
         theme_info.style)
  else
    if sketch_type == "face" then
      if theme_info.style == "realistic" then
        ("realistic portrait of one person, " ++ theme_info.positive_prompt ++ ", detailed facial features, proper anatomy, single face",
         theme_info.negative_prompt ++ ", deformed, extra limbs, multiple faces, mutated hands, blurry, out of focus, low quality, glitch, split face, extra heads, extra bodies, anatomical error",
         theme_info.style)
      else
        ("anime style portrait, " ++ theme_info.positive_prompt ++ ", stylized features, clean lines, detailed illustration, single face",
         theme_info.negative_prompt ++ ", deformed, extra limbs, multiple faces, mutated hands, blurry, out of focus, low quality, glitch, split face, extra heads, extra bodies, anatomical error, realistic, photograph",
         theme_info.style)
    else
      if theme_info.style == "realistic" then
        ("realistic full body portrait of one person, " ++ theme_info.positive_prompt ++ ", proper anatomy, single figure, natural pose",
         theme_info.negative_prompt ++ ", deformed, extra limbs, multiple faces, mutated hands, blurry, out of focus, low quality, glitch, split face, extra heads, extra bodies, anatomical error, multiple people",
         theme_info.style)
      else
        ("anime style full body portrait, " ++ theme_info.positive_prompt ++ ", stylized features, clean lines, detailed illustration, single figure, dynamic pose",
         theme_info.negative_prompt ++ ", deformed, extra limbs, multiple faces, mutated hands, blurry, out of focus, low quality, glitch, split face, extra heads, extra bodies, anatomical error, multiple people, realistic, photograph",
         theme_info.style)

/-- Record for one tier entry of the `PRESET_PARAMETERS` dictionary in
`src/frontend/app.py`. -/
structure PresetEntry where
  controlnet_conditioning_scale : ℚ
  guidance_scale : ℚ
  num_inference_steps : ℕ
  control_type : String
deriving DecidableEq, Repr

/-- The centralized `PRESET_PARAMETERS` table of `src/frontend/app.py`:
(art style, sketch type, preset tier) to generation parameters. -/
def PRESET_PARAMETERS : List (String × List (String × List (String × PresetEntry))) := [
  ("realistic", [
    ("face", [
      ("Default", ⟨0.95, 6.5, 30, "scribble"⟩),
      ("Balanced", ⟨0.9, 6.0, 30, "scribble"⟩),
      ("Creative", ⟨0.8, 7.0, 30, "scribble"⟩)
    ]),
    ("full_body", [
      ("Default", ⟨0.6, 8.0, 30, "scribble"⟩),
      ("Balanced", ⟨0.7, 7.5, 30, "scribble"⟩),
      ("Creative", ⟨0.8, 7.0, 30, "scribble"⟩)
    ])
  ]),
  ("cartoon", [
    ("face", [
      ("Default", ⟨0.95, 7.0, 32, "scribble"⟩),
      ("Balanced", ⟨0.9, 6.5, 34, "scribble"⟩),
      ("Creative", ⟨0.8, 6.0, 36, "scribble"⟩)
    ]),
    ("full_body", [
      ("Default", ⟨0.95, 7.0, 32, "scribble"⟩),
      ("Balanced", ⟨0.9, 6.5, 34, "scribble"⟩),
      ("Creative", ⟨0.8, 6.0, 36, "scribble"⟩)
    ])
  ]),
  ("ultra_realistic", [
    ("face", [
      ("Default", ⟨0.95, 7.0, 32, "canny"⟩),
      ("Balanced", ⟨0.9, 6.5, 34, "canny"⟩),
      ("Creative", ⟨0.58, 3.0, 36, "canny"⟩)
    ]),
    ("full_body", [
      ("Default", ⟨0.95, 7.0, 32, "canny"⟩),
      ("Balanced", ⟨0.4, 8.0, 34, "canny"⟩),
      ("Creative", ⟨0.4, 8.0, 36, "canny"⟩)
    ])
  ])
]

/-- The parameter record with `control_type` removed, modelling the Python
dictionary comprehension that drops the `control_type` key. -/
structure OptimalParams where
  controlnet_conditioning_scale : ℚ
  guidance_scale : ℚ
  num_inference_steps : ℕ
deriving DecidableEq, Repr

/-- Projection dropping the `control_type` field of a preset entry. -/
def entryParams (e : PresetEntry) : OptimalParams :=
  ⟨e.controlnet_conditioning_scale, e.guidance_scale, e.num_inference_steps⟩

/-- Triple lookup `PRESET_PARAMETERS[a][s][k]`; `none` models `KeyError`. -/
def presetLookup (art_style sketch_type preset_key : String) : Option PresetEntry := do
  let d1 ← dictFind PRESET_PARAMETERS art_style
  let d2 ← dictFind d1 sketch_type
  dictFind d2 preset_key

/-- The literal fallback entry `PRESET_PARAMETERS["realistic"]["face"]["Default"]`
read in the `except KeyError` branch of `get_parameters_from_preset`. -/
def fallbackEntry : PresetEntry :=
  (presetLookup "realistic" "face" "Default").getD ⟨0, 0, 0, ""⟩

/-- The function `get_parameters_from_preset` of `src/frontend/app.py`.
Returns the parameters, the control type, and a flag that is `true` exactly
when the `except KeyError` branch ran and emitted its `st.error` fallback
diagnostic (so the function itself never raises). -/
def get_parameters_from_preset (art_style sketch_type preset_choice : String) :
    OptimalParams × String × Bool :=
  let preset_key :=
    if strContains preset_choice "Creative" then "Creative"
    else if strContains preset_choice "Balanced" then "Balanced"
    else "Default"
  match presetLookup art_style sketch_type preset_key with
  | some params_dict => (entryParams params_dict, params_dict.control_type, false)
  | none => (entryParams fallbackEntry, fallbackEntry.control_type, true)
/-- Prompt construction of `call_enhanced_controlnet_api` in
`src/frontend/app.py` (the ENHANCED PROMPT ENGINEERING block): returns the
pair (enhanced positive prompt, enhanced negative prompt) for the given art
style, sketch type, user prompt and custom negative prompt.  The Python
truthiness test `if not negative_prompt` becomes an emptiness test. -/
def enhancedControlnetPrompts (art_style sketch_type prompt negative_prompt : String) :
    String × String :=
  if art_style == "realistic" then
    if sketch_type == "face" then
      ("realistic photographic portrait, natural skin texture, professional studio lighting, shallow depth of field, sharp focus, single person, detailed eyes, natural hair, smooth facial geometry, no outline overlay, " ++ prompt,
       if negative_prompt == "" then
         "cartoon, anime, illustration, drawing, painting, 3d render, cgi, doll-like, plastic skin, overprocessed, smooth flat shading, line overlay, heavy outlines, deformed, extra limbs, bad anatomy, multiple faces, blurry, low quality"
       else
         "cartoon, anime, illustration, drawing, painting, 3d render, cgi, doll-like, plastic skin, overprocessed, smooth flat shading, line overlay, heavy outlines, deformed, extra limbs, bad anatomy, multiple faces, blurry, low quality, " ++ negative_prompt)
    else
      (prompt ++ ", realistic full body photo, professional photography, studio or clean backdrop, correct human anatomy, natural pose, single person, detailed clothing folds, smooth body geometry, no outline overlay",
       if negative_prompt == "" then
         "cartoon, anime, illustration, drawing, painting, 3d render, cgi, doll-like, plastic skin, overprocessed, smooth flat shading, line overlay, heavy outlines, deformed, extra limbs, bad anatomy, multiple people, blurry, low quality"
       else
         "cartoon, anime, illustration, drawing, painting, 3d render, cgi, doll-like, plastic skin, overprocessed, smooth flat shading, line overlay, heavy outlines, deformed, extra limbs, bad anatomy, multiple people, blurry, low quality, " ++ negative_prompt)
  else if art_style == "ultra_realistic" then
    if sketch_type == "face" then
      ("photorealistic portrait, DSLR photography, natural skin texture with pores, detailed facial features, professional studio lighting, sharp focus, beautiful, proper anatomy, ultra high resolution, 8k quality, HDR, bokeh, natural expression, realistic hair strands, detailed eyes and eyebrows, natural skin tone, single person, single face, no group, no crowd, " ++ prompt,
       if negative_prompt == "" then
         "deformed, extra limbs, multiple faces, multiple people, mutated hands, fused fingers, extra fingers, missing fingers, distorted hands, bad anatomy, blurry, out of focus, low quality, glitch, split face, extra heads, extra bodies, anatomical error, inappropriate clothing, revealing, nude, naked, cartoon, anime, illustration, painting, drawing, sketch, unrealistic, artificial, digital art, 3d render, CGI, stylized, animated, cell shaded, flat colors, simple shading, exaggerated features, doll-like, toy-like, plastic, artificial skin, smooth skin, perfect skin, airbrushed, retouched, filtered"
       else
         "deformed, extra limbs, multiple faces, multiple people, mutated hands, fused fingers, extra fingers, missing fingers, distorted hands, bad anatomy, blurry, out of focus, low quality, glitch, split face, extra heads, extra bodies, anatomical error, inappropriate clothing, revealing, nude, naked, cartoon, anime, illustration, painting, drawing, sketch, unrealistic, artificial, digital art, 3d render, CGI, stylized, animated, cell shaded, flat colors, simple shading, exaggerated features, doll-like, toy-like, plastic, artificial skin, smooth skin, perfect skin, airbrushed, retouched, filtered, " ++ negative_prompt)
    else
      (prompt ++ ", photorealistic full body portrait, DSLR photography, natural skin texture with pores, detailed facial features, wearing casual clothing, decent attire, appropriate dress, proper anatomy, single figure, natural pose, ultra high resolution, 8k quality, HDR, bokeh, natural expression, realistic hair strands, detailed eyes and eyebrows, natural skin tone, single person, no group, no crowd",
       if negative_prompt == "" then
         "deformed, extra limbs, multiple faces, multiple people, mutated hands, fused fingers, extra fingers, missing fingers, distorted hands, bad anatomy, blurry, out of focus, low quality, glitch, split face, extra heads, extra bodies, anatomical error, inappropriate clothing, revealing, nude, naked, cartoon, anime, illustration, painting, drawing, sketch, unrealistic, artificial, digital art, 3d render, CGI, stylized, animated, cell shaded, flat colors, simple shading, exaggerated features, doll-like, toy-like, plastic, artificial skin, smooth skin, perfect skin, airbrushed, retouched, filtered"
       else
         "deformed, extra limbs, multiple faces, multiple people, mutated hands, fused fingers, extra fingers, missing fingers, distorted hands, bad anatomy, blurry, out of focus, low quality, glitch, split face, extra heads, extra bodies, anatomical error, inappropriate clothing, revealing, nude, naked, cartoon, anime, illustration, painting, drawing, sketch, unrealistic, artificial, digital art, 3d render, CGI, stylized, animated, cell shaded, flat colors, simple shading, exaggerated features, doll-like, toy-like, plastic, artificial skin, smooth skin, perfect skin, airbrushed, retouched, filtered, " ++ negative_prompt)
  else
    if sketch_type == "face" then
      ("anime style portrait, vibrant colors, stylized features, clean lines, detailed illustration, single face, " ++ prompt,
       if negative_prompt == "" then
         "deformed, extra limbs, multiple faces, mutated hands, blurry, out of focus, low quality, glitch, split face, extra heads, extra bodies, anatomical error, realistic, photograph"
       else
         "deformed, extra limbs, multiple faces, mutated hands, blurry, out of focus, low quality, glitch, split face, extra heads, extra bodies, anatomical error, realistic, photograph, " ++ negative_prompt)
    else
      ("anime style full body portrait, vibrant colors, stylized features, clean lines, detailed illustration, single figure, dynamic pose, " ++ prompt,
       if negative_prompt == "" then
         "deformed, extra limbs, multiple faces, mutated hands, blurry, out of focus, low quality, glitch, split face, extra heads, extra bodies, anatomical error, multiple people, realistic, photograph"
       else
         "deformed, extra limbs, multiple faces, mutated hands, blurry, out of focus, low quality, glitch, split face, extra heads, extra bodies, anatomical error, multiple people, realistic, photograph, " ++ negative_prompt)
/-- Literal `balanced_negative` default of `call_kaggle_sdxl_api`
(`src/frontend/app.py`). -/
def kaggleBalancedNegative : String :=
  "deformed, distorted, disfigured, bad anatomy, bad proportions, extra limbs, missing limbs, floating limbs, mutated hands and fingers, out of focus, long neck, long body, mutated hands and fingers, missing arms, missing legs, extra arms, extra legs, malformed limbs, mutated limbs, double image, blurred, ugly, disgusting, amputation, extra limbs, extra arms, extra legs, disfigured, gross proportions, malformed, mutated, anatomical, anatomical error, goofy, unrealistic, cartoon, anime, painting, drawing, sketch, illustration, low quality, blurry, pixelated"

/-- Literal `base_negative` default of the guided-generation block
(`src/frontend/app.py`). -/
def base_negative : String :=
  "deformed, distorted, disfigured, bad anatomy, bad proportions, extra limbs, missing limbs, floating limbs, mutated hands and fingers, out of focus, long neck, long body, mutated hands and fingers, missing arms, missing legs, extra arms, extra legs, malformed limbs, mutated limbs, double image, blurred, ugly, disgusting, amputation, extra limbs, extra arms, extra legs, disfigured, gross proportions, malformed, mutated, anatomical, anatomical error, goofy, unrealistic, cartoon, anime, painting, drawing, sketch, illustration, low quality, blurry, pixelated"

/-- Enhanced positive prompt of `call_kaggle_sdxl_api` in
`src/frontend/app.py`: a fixed photography wrapper around the user prompt. -/
def kaggleEnhancedPrompt (prompt : String) : String :=
  "professional photography, " ++ prompt ++ ", high quality, detailed, natural lighting, sharp focus, beautiful, masterpiece, 8k, ultra detailed"

/-- Final negative prompt of `call_kaggle_sdxl_api` in `src/frontend/app.py`:
the Python expression `negative_prompt if negative_prompt else balanced_negative`
(truthiness becomes non-emptiness). -/
def kaggleFinalNegative (negative_prompt : String) : String :=
  if negative_prompt ≠ "" then negative_prompt else kaggleBalancedNegative

/-- Context-exclusion scan of the guided-generation block of
`src/frontend/app.py` (the `context_negative` if/elif chain): returns the
single context negative fragment, or the empty string when no rule fires. -/
def contextNegative (prompt theme : String) : String :=
  if prompt ≠ "" && ["boy", "child", "kid", "young"].any (fun word => strContains (pyLower prompt) word) then
    "adult, woman, female, girl, old person, elderly, mature"
  else if prompt ≠ "" && ["girl", "woman", "female", "lady"].any (fun word => strContains (pyLower prompt) word) then
    "man, boy, male, child, kid, young"
  else if prompt ≠ "" && ["man", "male", "guy", "dude"].any (fun word => strContains (pyLower prompt) word) then
    "woman, girl, female, lady"
  else if strContains (pyLower theme) "animal" || ["pet", "wildlife", "creature"].any (fun word => strContains (pyLower theme) word) then
    "human, person, man, woman, child, boy, girl"
  else if strContains (pyLower theme) "architecture" || strContains (pyLower theme) "object" || ["building", "furniture", "vehicle", "product"].any (fun word => strContains (pyLower theme) word) then
    "human, person, man, woman, child, boy, girl"
  else
    ""

/-- Combination of the base and context negative prompts in the
guided-generation block of `src/frontend/app.py`. -/
def combinedNegative (prompt theme : String) : String :=
  let context_negative := contextNegative prompt theme
  if context_negative ≠ "" then base_negative ++ ", " ++ context_negative
  else base_negative

/-- Events observable during dispatch: one network request per constructor
carrying the attempt index where relevant, plus `time.sleep` backoffs. -/
inductive NetEvent where
  | postLocal
  | postKaggle (attempt : ℕ)
  | postEnhanced (attempt : ℕ)
  | backoff (secs : ℕ)
deriving DecidableEq, Repr

/-- Outcome of the single `requests.post` of `call_local_controlnet_fallback`:
an HTTP response with a status code, or a raised exception. -/
inductive LocalOutcome where
  | resp (status : ℕ)
  | exc
deriving DecidableEq, Repr

/-- The function `call_local_controlnet_fallback` of `src/frontend/app.py`:
placeholder URL returns `None` before any network call; otherwise one POST,
an image on status 200 and `None` on any other status or exception. -/
def localControlnetModel (backend_url : String) (o : LocalOutcome) :
    List NetEvent × Option Unit :=
  if strContains backend_url "your-ngrok-url-here" then ([], none)
  else
    match o with
    | .resp status => ([.postLocal], if status == 200 then some () else none)
    | .exc => ([.postLocal], none)

/-- Outcome of one `requests.post` of `call_kaggle_sdxl_api`: a response with
a status code and a flag for whether the JSON body has an `image` field, a
`requests.exceptions.Timeout`, or a connection error (any exception other
than `Timeout`, which the inner handler does not catch). -/
inductive KaggleOutcome where
  | resp (status : ℕ) (hasImage : Bool)
  | timeout
  | connError
deriving DecidableEq, Repr

/-- Result of `call_kaggle_sdxl_api`: an image decoded from the Kaggle
backend, the result of falling back to `call_local_controlnet_fallback`, or
the implicit `None` of a fallen-through `for` loop. -/
inductive KaggleResult where
  | kaggleImage
  | localFallback (r : Option Unit)
  | implicitNone
deriving DecidableEq, Repr

/-- Retry loop of `call_kaggle_sdxl_api` (`for attempt in range(max_retries)`
with `max_retries = 3`), modelled with fuel equal to the remaining loop
iterations; `i` is the current value of `attempt`.  A 404 response or a
`Timeout` on a non-final attempt sleeps 2 seconds and retries; a 200 response
without `image`, any other status, and the final-attempt cases fall back to
the local backend; a connection error propagates to the outer
`except Exception` handler, which also falls back to the local backend. -/
def kaggleGo (url : String) (oracle : ℕ → KaggleOutcome) (localO : LocalOutcome) :
    ℕ → ℕ → List NetEvent × KaggleResult
  | 0, _ => ([], .implicitNone)
  | fuel + 1, i =>
    match oracle i with
    | .resp status hasImage =>
      if status == 200 then
        if hasImage then ([.postKaggle i], .kaggleImage)
        else
          let (evs, r) := localControlnetModel url localO
          ([.postKaggle i] ++ evs, .localFallback r)
      else if status == 404 && decide (i < 3 - 1) then
        let (evs, r) := kaggleGo url oracle localO fuel (i + 1)
        ([.postKaggle i, .backoff 2] ++ evs, r)
      else
        let (evs, r) := localControlnetModel url localO
        ([.postKaggle i] ++ evs, .localFallback r)
    | .timeout =>
      if decide (i < 3 - 1) then
        let (evs, r) := kaggleGo url oracle localO fuel (i + 1)
        ([.postKaggle i, .backoff 2] ++ evs, r)
      else
        let (evs, r) := localControlnetModel url localO
        ([.postKaggle i] ++ evs, .localFallback r)
    | .connError =>
      let (evs, r) := localControlnetModel url localO
      ([.postKaggle i] ++ evs, .localFallback r)

/-- The function `call_kaggle_sdxl_api` of `src/frontend/app.py`: placeholder
URL falls back to the local backend before any Kaggle network call; otherwise
the retry loop runs with `max_retries = 3` starting at attempt 0. -/
def kaggleModel (url : String) (oracle : ℕ → KaggleOutcome) (localO : LocalOutcome) :
    List NetEvent × KaggleResult :=
  if strContains url "your-ngrok-url-here" then
    let (evs, r) := localControlnetModel url localO
    (evs, .localFallback r)
  else kaggleGo url oracle localO 3 0

/-- Outcome of one `requests.post` of `call_enhanced_controlnet_api`: a
returned response (which breaks out of the retry loop), a `Timeout`, a
`ConnectionError`, or any other exception. -/
inductive EnhancedOutcome where
  | resp
  | timeout
  | connError
  | otherExc
deriving DecidableEq, Repr

/-- Result of the retry loop of `call_enhanced_controlnet_api`: the loop
broke with a response after attempt `i`, or `st.stop()` aborted the run, or
the placeholder URL returned `None` before the loop. -/
inductive EnhancedLoopResult where
  | gotResponse (i : ℕ)
  | stStop
  | notConfigured
deriving DecidableEq, Repr

/-- Retry loop of `call_enhanced_controlnet_api` (`max_retries = 3`):
a response breaks out of the loop; a `Timeout` on a non-final attempt sleeps
2 seconds and retries, a `ConnectionError` sleeps 3 seconds and retries, any
other exception sleeps 2 seconds and retries; on the final attempt each
handler calls `st.stop()`.  Every iteration breaks, continues or stops, so
the fuel-exhaustion base case is unreachable from fuel 3. -/
def enhancedGo (oracle : ℕ → EnhancedOutcome) :
    ℕ → ℕ → List NetEvent × EnhancedLoopResult
  | 0, _ => ([], .stStop)
  | fuel + 1, i =>
    match oracle i with
    | .resp => ([.postEnhanced i], .gotResponse i)
    | .timeout =>
      if decide (i < 3 - 1) then
        let (evs, r) := enhancedGo oracle fuel (i + 1)
        ([.postEnhanced i, .backoff 2] ++ evs, r)
      else ([.postEnhanced i], .stStop)
    | .connError =>
      if decide (i < 3 - 1) then
        let (evs, r) := enhancedGo oracle fuel (i + 1)
        ([.postEnhanced i, .backoff 3] ++ evs, r)
      else ([.postEnhanced i], .stStop)
    | .otherExc =>
      if decide (i < 3 - 1) then
        let (evs, r) := enhancedGo oracle fuel (i + 1)
        ([.postEnhanced i, .backoff 2] ++ evs, r)
      else ([.postEnhanced i], .stStop)

/-- Dispatch part of `call_enhanced_controlnet_api` of `src/frontend/app.py`:
placeholder URL returns `None` before any network call, otherwise the retry
loop runs with `max_retries = 3` starting at attempt 0. -/
def enhancedApiModel (url : String) (oracle : ℕ → EnhancedOutcome) :
    List NetEvent × EnhancedLoopResult :=
  if strContains url "your-ngrok-url-here" then ([], .notConfigured)
  else enhancedGo oracle 3 0

/-- Backends in the fixed order tried by `call_hf_sdxl_api`. -/
inductive HFBackend where
  | http
  | gradio
  | localFallback
deriving DecidableEq, Repr

/-- The function `call_hf_sdxl_api` of `src/frontend/app.py`: with a missing
or placeholder token it goes straight to the local fallback; otherwise it
invokes the HTTP SDXL API, returns its result if truthy, then the Gradio
SDXL API, returns its result if truthy, and otherwise the local fallback.
The two sub-APIs are modelled by their results `httpResult` and
`gradioResult`; the returned list records which backends were invoked, in
order. -/
def hfModel (hf_token : String) (httpResult gradioResult : Option Unit)
    (localUrl : String) (localO : LocalOutcome) :
    List HFBackend × Option Unit :=
  if hf_token == "" || hf_token == "your_token_here" then
    ([.localFallback], (localControlnetModel localUrl localO).2)
  else
    match httpResult with
    | some img => ([.http], some img)
    | none =>
      match gradioResult with
      | some img => ([.http, .gradio], some img)
      | none => ([.http, .gradio, .localFallback], (localControlnetModel localUrl localO).2)

/-- Tier-name matching written from the wording of the spec: a tier string
containing "Creative" selects Creative, else one containing "Balanced"
selects Balanced, else Default. -/
def specTierKey (tier : String) : String :=
  if strContains tier "Creative" then "Creative"
  else if strContains tier "Balanced" then "Balanced"
  else "Default"

/-- Context-exclusion rules written from the wording of the spec, in the
fixed priority order (boy/child, girl/woman, man/male, animal category,
architecture/object category): each rule is its firing condition paired with
the negative fragment it would add. -/
def specContextRules (prompt theme : String) : List (Bool × String) :=
  [ (prompt ≠ "" && ["boy", "child", "kid", "young"].any (fun word => strContains (pyLower prompt) word),
     "adult, woman, female, girl, old person, elderly, mature"),
    (prompt ≠ "" && ["girl", "woman", "female", "lady"].any (fun word => strContains (pyLower prompt) word),
     "man, boy, male, child, kid, young"),
    (prompt ≠ "" && ["man", "male", "guy", "dude"].any (fun word => strContains (pyLower prompt) word),
     "woman, girl, female, lady"),
    (strContains (pyLower theme) "animal" || ["pet", "wildlife", "creature"].any (fun word => strContains (pyLower theme) word),
     "human, person, man, woman, child, boy, girl"),
    (strContains (pyLower theme) "architecture" || strContains (pyLower theme) "object" || ["building", "furniture", "vehicle", "product"].any (fun word => strContains (pyLower theme) word),
     "human, person, man, woman, child, boy, girl") ]

/-- Fragment selected by the first firing rule of `specContextRules`, or the
empty string when no rule fires: the spec-worded selection in which at most
one rule fires and a lower-priority rule never fires when a higher-priority
one matches. -/
def specContextNegative (prompt theme : String) : String :=
  match (specContextRules prompt theme).find? (fun rule => rule.1) with
  | some rule => rule.2
  | none => ""

/-- Number of network attempts against the enhanced ControlNet backend
recorded in an event trace. -/
def enhancedAttemptCount (evs : List NetEvent) : ℕ :=
  (evs.filter fun e => match e with | .postEnhanced _ => true | _ => false).length

/-- Number of network attempts against the Kaggle backend recorded in an
event trace. -/
def kaggleAttemptCount (evs : List NetEvent) : ℕ :=
  (evs.filter fun e => match e with | .postKaggle _ => true | _ => false).length

/-- C10: for every theme name not present in `THEME_DESCRIPTIONS`,
`get_theme_info` returns (never raises) the default record with style
"realistic", positive prompt exactly the theme name, and the generic
defect-avoidance negative fragment; consequently prompt composition for such
a theme uses the theme name as the sole theme-derived positive fragment. -/
theorem get_theme_info_unknown_default (theme_name : String)
    (h : dictFind THEME_DESCRIPTIONS theme_name = none) :
    get_theme_info theme_name =
      ⟨"Custom theme with unique artistic style", "realistic", theme_name,
       "deformed, extra limbs, multiple faces, mutated hands, blurry, out of focus, low quality"⟩ ∧
    (get_enhanced_prompts_for_theme theme_name "face" "").1 =
      "realistic portrait of one person, " ++ theme_name ++
        ", detailed facial features, proper anatomy, single face" := by
  constructor
  · unfold get_theme_info
    rw [h]
  · unfold get_enhanced_prompts_for_theme get_theme_info
    rw [h]
    simp

/-- Witness for `get_theme_info_unknown_default` at the concrete unknown
theme name "Dragon kingdom". -/
theorem get_theme_info_unknown_default_witness :
    get_theme_info "Dragon kingdom" =
      ⟨"Custom theme with unique artistic style", "realistic", "Dragon kingdom",
       "deformed, extra limbs, multiple faces, mutated hands, blurry, out of focus, low quality"⟩ ∧
    (get_enhanced_prompts_for_theme "Dragon kingdom" "face" "").1 =
      "realistic portrait of one person, " ++ "Dragon kingdom" ++
        ", detailed facial features, proper anatomy, single face" :=
  get_theme_info_unknown_default "Dragon kingdom" (by decide)

/-- C2: parameter resolution treats the tier string by substring matching:
a string containing "Creative" selects the Creative tier, else one containing
"Balanced" selects Balanced, else Default — so the result always agrees with
resolving the normalized tier key; in particular the decorated label
"Default (Recommended)" resolves to Default. -/
theorem get_parameters_tier_matching :
    (∀ art_style sketch_type tier,
      get_parameters_from_preset art_style sketch_type tier =
        get_parameters_from_preset art_style sketch_type (specTierKey tier)) ∧
    specTierKey "Default (Recommended)" = "Default" := by
  constructor
  · intro a s t
    unfold get_parameters_from_preset specTierKey
    by_cases hc : strContains t "Creative"
    · simp [hc, show strContains "Creative" "Creative" = true from by decide]
    · by_cases hb : strContains t "Balanced"
      · simp [hc, hb,
          show strContains "Balanced" "Creative" = false from by decide,
          show strContains "Balanced" "Balanced" = true from by decide]
      · simp [hc, hb,
          show strContains "Default" "Creative" = false from by decide,
          show strContains "Default" "Balanced" = false from by decide]
  · decide

/-- C3: for every (art style, sketch type) pair absent from the parameter
table and every tier string, `get_parameters_from_preset` returns the
(realistic, face, Default) parameters together with their control type and
sets the fallback-diagnostic flag; being a total function of the embedding it
never raises, so every request receives parameters. -/
theorem get_parameters_fallback (art_style sketch_type tier : String)
    (h : (dictFind PRESET_PARAMETERS art_style).bind
          (fun d => dictFind d sketch_type) = none) :
    presetLookup "realistic" "face" "Default" = some fallbackEntry ∧
    get_parameters_from_preset art_style sketch_type tier =
      (entryParams fallbackEntry, fallbackEntry.control_type, true) := by
  constructor
  · rfl
  · have hlk : ∀ k, presetLookup art_style sketch_type k = none := by
      intro k
      unfold presetLookup
      rcases h1 : dictFind PRESET_PARAMETERS art_style with _ | d1
      · rfl
      · rw [h1] at h
        simp only [Option.some_bind] at h
        simp [h]
    unfold get_parameters_from_preset
    simp only [hlk]

/-- Witness for `get_parameters_fallback` at the concrete absent pair
(watercolor, face) with tier "Creative". -/
theorem get_parameters_fallback_witness :
    presetLookup "realistic" "face" "Default" = some fallbackEntry ∧
    get_parameters_from_preset "watercolor" "face" "Creative" =
      (entryParams fallbackEntry, fallbackEntry.control_type, true) :=
  get_parameters_fallback "watercolor" "face" "Creative" (by decide)

/-- Helper: selecting the first firing rule from a five-rule list is the
if-chain over the five conditions in order. -/
theorem findRule_eq_ifChain (b1 b2 b3 b4 b5 : Bool) (s1 s2 s3 s4 s5 : String) :
    (match List.find? (fun rule => rule.1)
        [(b1, s1), (b2, s2), (b3, s3), (b4, s4), (b5, s5)] with
     | some rule => rule.2
     | none => "") =
      if b1 then s1 else if b2 then s2 else if b3 then s3
      else if b4 then s4 else if b5 then s5 else "" := by
  cases b1 <;> cases b2 <;> cases b3 <;> cases b4 <;> cases b5 <;>
    simp [List.find?]

/-- C5: the context-exclusion scan adds at most one negative fragment, the
one of the first rule that fires in the fixed priority boy/child over
girl/woman over man/male over animal category over architecture/object
category — it agrees everywhere with the spec-worded first-firing-rule
selection, so a lower-priority rule never fires when a higher-priority one
matches. -/
theorem context_negative_priority (prompt theme : String) :
    contextNegative prompt theme = specContextNegative prompt theme := by
  unfold contextNegative specContextNegative specContextRules
  rw [findRule_eq_ifChain]

/-- Helper: a string starts with `p` if it is `p ++ r`. -/
theorem strStarts_of_append (p r : String) : StrStarts p (p ++ r) := by
  rw [StrStarts, String.data_append]
  exact List.prefix_append _ _

/-- Helper: a string ends with `p` if it is `r ++ p`. -/
theorem strEnds_of_append (p r : String) : StrEnds p (r ++ p) := by
  rw [StrEnds, String.data_append]
  exact List.suffix_append _ _

/-- C1 (amended): `get_enhanced_prompts_for_theme` places a non-empty user
prompt first in the positive prompt for every theme and sketch type; the
prompt construction inside `call_enhanced_controlnet_api` places the user
prompt first only in its realistic full-body and ultra-realistic full-body
branches, and places it last, after the template fragments, in the realistic
face, ultra-realistic face, and cartoon branches. -/
theorem user_prompt_placement :
    (∀ theme sketch_type user_prompt, user_prompt ≠ "" →
      StrStarts user_prompt
        ((get_enhanced_prompts_for_theme theme sketch_type user_prompt).1)) ∧
    (∀ p n, StrStarts p ((enhancedControlnetPrompts "realistic" "full_body" p n).1)) ∧
    (∀ p n, StrStarts p ((enhancedControlnetPrompts "ultra_realistic" "full_body" p n).1)) ∧
    (∀ p n, StrEnds p ((enhancedControlnetPrompts "realistic" "face" p n).1)) ∧
    (∀ p n, StrEnds p ((enhancedControlnetPrompts "ultra_realistic" "face" p n).1)) ∧
    (∀ p n, StrEnds p ((enhancedControlnetPrompts "cartoon" "face" p n).1)) ∧
    (∀ p n, StrEnds p ((enhancedControlnetPrompts "cartoon" "full_body" p n).1)) := by
  refine ⟨?_, ?_, ?_, ?_, ?_, ?_, ?_⟩
  · intro t s u hu
    unfold get_enhanced_prompts_for_theme
    rw [if_pos hu]
    split <;> split <;>
      (dsimp only; simp only [String.append_assoc]; exact strStarts_of_append _ _)
  · intro p n
    exact strStarts_of_append _ _
  · intro p n
    exact strStarts_of_append _ _
  · intro p n
    exact strEnds_of_append _ _
  · intro p n
    exact strEnds_of_append _ _
  · intro p n
    exact strEnds_of_append _ _
  · intro p n
    exact strEnds_of_append _ _

/-- Witness for `user_prompt_placement` at a concrete theme, sketch type and
non-empty user prompt. -/
theorem user_prompt_placement_witness :
    StrStarts "girl with red hair"
      ((get_enhanced_prompts_for_theme "Van Gogh style" "face" "girl with red hair").1) :=
  user_prompt_placement.1 "Van Gogh style" "face" "girl with red hair" (by decide)

/-- Counterexample to C1 as stated: in the realistic face branch of
`call_enhanced_controlnet_api` the positive prompt does not start with the
non-empty user prompt "red hair" — the user text is appended after the
template fragments instead. -/
theorem user_prompt_placement_counterexample :
    ¬ StrStarts "red hair"
      ((enhancedControlnetPrompts "realistic" "face" "red hair" "").1) := by
  decide

set_option maxRecDepth 8192 in
/-- C4 (amended): in `call_enhanced_controlnet_api` a non-empty custom
negative prompt is appended last, after the default negative fragments, for
every art style and sketch type; in `call_kaggle_sdxl_api` a non-empty custom
negative prompt instead replaces the balanced default entirely. -/
theorem custom_negative_append (art_style sketch_type p n : String) (hn : n ≠ "") :
    (enhancedControlnetPrompts art_style sketch_type p n).2 =
      (enhancedControlnetPrompts art_style sketch_type p "").2 ++ ", " ++ n ∧
    kaggleFinalNegative n = n := by
  have hn' : (n == "") = false := by
    simpa using hn
  constructor
  · unfold enhancedControlnetPrompts
    simp only [hn', Bool.false_eq_true, if_false, beq_self_eq_true, if_true]
    repeat' split
    all_goals (dsimp only; exact congrArg (fun x => x ++ n) (by decide))
  · unfold kaggleFinalNegative
    rw [if_pos hn]

/-- Witness for `custom_negative_append` at concrete inputs. -/
theorem custom_negative_append_witness :
    (enhancedControlnetPrompts "cartoon" "face" "a cat" "no dogs").2 =
      (enhancedControlnetPrompts "cartoon" "face" "a cat" "").2 ++ ", " ++ "no dogs" ∧
    kaggleFinalNegative "no dogs" = "no dogs" :=
  custom_negative_append "cartoon" "face" "a cat" "no dogs" (by decide)

/-- Counterexample to C4 as stated: in `call_kaggle_sdxl_api` a non-empty
custom negative prompt yields a final negative prompt equal to the custom
text alone — the balanced default fragments are replaced, not kept as a
prefix. -/
theorem custom_negative_append_counterexample :
    kaggleFinalNegative "no cats" = "no cats" ∧
    ¬ StrStarts kaggleBalancedNegative (kaggleFinalNegative "no cats") := by
  constructor
  · rfl
  · decide

/-- C8: in `call_hf_sdxl_api` with a usable token, the first backend whose
invocation returns a success result terminates the dispatch immediately with
that result and no later backend is invoked: an HTTP-API success stops after
the HTTP backend alone, and with the HTTP backend failed a Gradio success
stops without invoking the local fallback. -/
theorem first_success_short_circuits (hf_token : String)
    (httpResult gradioResult : Option Unit) (localUrl : String)
    (localO : LocalOutcome) (h1 : hf_token ≠ "") (h2 : hf_token ≠ "your_token_here") :
    (∀ img, httpResult = some img →
      hfModel hf_token httpResult gradioResult localUrl localO =
        ([HFBackend.http], some img)) ∧
    (httpResult = none → ∀ img, gradioResult = some img →
      hfModel hf_token httpResult gradioResult localUrl localO =
        ([HFBackend.http, HFBackend.gradio], some img)) := by
  have hc : (hf_token == "" || hf_token == "your_token_here") = false := by
    simp [h1, h2]
  constructor
  · intro img h
    simp [hfModel, hc, h]
  · intro h img hg
    simp [hfModel, hc, h, hg]

/-- Witness for `first_success_short_circuits` with a concrete token and a
succeeding HTTP backend. -/
theorem first_success_short_circuits_witness :
    hfModel "hf_sometoken" (some ()) none "http://local" LocalOutcome.exc =
      ([HFBackend.http], some ()) :=
  (first_success_short_circuits "hf_sometoken" (some ()) none "http://local"
    LocalOutcome.exc (by decide) (by decide)).1 () rfl

/-- C9: for every backend URL still containing the unconfigured placeholder,
each of the three dispatch functions detects this before any network call:
the event trace is empty (no POST is ever issued) and the backend is treated
as immediately exhausted. -/
theorem placeholder_no_network (url : String)
    (h : StrContains url "your-ngrok-url-here") :
    (∀ o, localControlnetModel url o = ([], none)) ∧
    (∀ oracle o, kaggleModel url oracle o = ([], KaggleResult.localFallback none)) ∧
    (∀ oracle, enhancedApiModel url oracle = ([], EnhancedLoopResult.notConfigured)) := by
  have hb : strContains url "your-ngrok-url-here" = true := by
    unfold strContains
    exact decide_eq_true h
  refine ⟨?_, ?_, ?_⟩
  · intro o
    simp [localControlnetModel, hb]
  · intro oracle o
    simp [kaggleModel, localControlnetModel, hb]
  · intro oracle
    simp [enhancedApiModel, hb]

/-- Witness for `placeholder_no_network` at a concrete placeholder URL. -/
theorem placeholder_no_network_witness :
    localControlnetModel "https://your-ngrok-url-here.ngrok.io" LocalOutcome.exc = ([], none) ∧
    kaggleModel "https://your-ngrok-url-here.ngrok.io" (fun _ => KaggleOutcome.timeout)
      (LocalOutcome.resp 200) = ([], KaggleResult.localFallback none) ∧
    enhancedApiModel "https://your-ngrok-url-here.ngrok.io" (fun _ => EnhancedOutcome.resp) =
      ([], EnhancedLoopResult.notConfigured) :=
  ⟨(placeholder_no_network "https://your-ngrok-url-here.ngrok.io" (by decide)).1 _,
   (placeholder_no_network "https://your-ngrok-url-here.ngrok.io" (by decide)).2.1 _ _,
   (placeholder_no_network "https://your-ngrok-url-here.ngrok.io" (by decide)).2.2 _⟩

/-- Helper: every started attempt of the enhanced retry loop records its POST
first. -/
theorem enhancedGo_head (oracle : ℕ → EnhancedOutcome) (fuel i : ℕ) :
    ∃ tl r, enhancedGo oracle (fuel + 1) i = (NetEvent.postEnhanced i :: tl, r) := by
  rcases h : oracle i <;> simp only [enhancedGo, h] <;>
    [skip; split; split; split] <;>
    exact ⟨_, _, rfl⟩

/-- Helper: a retryable outcome on a non-final attempt of the enhanced retry
loop sleeps 2 or 3 seconds and continues with the next attempt. -/
theorem enhancedGo_retry (oracle : ℕ → EnhancedOutcome) (fuel i : ℕ)
    (hi : i < 2) (h : oracle i ≠ .resp) :
    ∃ s, 2 ≤ s ∧ s ≤ 3 ∧
      enhancedGo oracle (fuel + 1) i =
        (NetEvent.postEnhanced i :: NetEvent.backoff s ::
          (enhancedGo oracle fuel (i + 1)).1,
         (enhancedGo oracle fuel (i + 1)).2) := by
  have hd : decide (i < 3 - 1) = true := decide_eq_true hi
  rcases ho : oracle i
  · exact absurd ho h
  · exact ⟨2, by norm_num, by norm_num, by simp [enhancedGo, ho, hd]⟩
  · exact ⟨3, by norm_num, by norm_num, by simp [enhancedGo, ho, hd]⟩
  · exact ⟨2, by norm_num, by norm_num, by simp [enhancedGo, ho, hd]⟩

/-- Helper: the local fallback never issues a Kaggle POST. -/
theorem kaggleAttemptCount_local (url : String) (o : LocalOutcome) :
    kaggleAttemptCount (localControlnetModel url o).1 = 0 := by
  unfold localControlnetModel
  split
  · rfl
  · rcases o <;> rfl

/-- Helper: every started attempt of the Kaggle retry loop records its POST
first. -/
theorem kaggleGo_head (url : String) (oracle : ℕ → KaggleOutcome)
    (localO : LocalOutcome) (fuel i : ℕ) :
    ∃ tl r, kaggleGo url oracle localO (fuel + 1) i =
      (NetEvent.postKaggle i :: tl, r) := by
  rcases h : oracle i <;> simp only [kaggleGo, h] <;>
    [(split <;> [split; (split <;> skip)]); split; skip] <;>
    exact ⟨_, _, rfl⟩

/-- Helper: a timeout or a 404 response on a non-final attempt of the Kaggle
retry loop sleeps 2 seconds and continues with the next attempt. -/
theorem kaggleGo_retry (url : String) (oracle : ℕ → KaggleOutcome)
    (localO : LocalOutcome) (fuel i : ℕ) (hi : i < 2)
    (h : oracle i = .timeout ∨ ∃ b, oracle i = .resp 404 b) :
    kaggleGo url oracle localO (fuel + 1) i =
      (NetEvent.postKaggle i :: NetEvent.backoff 2 ::
        (kaggleGo url oracle localO fuel (i + 1)).1,
       (kaggleGo url oracle localO fuel (i + 1)).2) := by
  have hd : decide (i < 3 - 1) = true := decide_eq_true hi
  rcases h with h | ⟨b, h⟩ <;> simp [kaggleGo, h, hd]

/-- Helper: a connection error, a non-404 error status, or a 200 response
without an image field makes the Kaggle loop fall back to the local backend
at once, with no further Kaggle attempt. -/
theorem kaggleGo_abort (url : String) (oracle : ℕ → KaggleOutcome)
    (localO : LocalOutcome) (fuel i : ℕ)
    (h : oracle i = .connError ∨
      ∃ status hasImage, oracle i = .resp status hasImage ∧ status ≠ 404 ∧
        (status = 200 → hasImage = false)) :
    kaggleGo url oracle localO (fuel + 1) i =
      (NetEvent.postKaggle i :: (localControlnetModel url localO).1,
       KaggleResult.localFallback (localControlnetModel url localO).2) := by
  rcases h with h | ⟨status, hasImage, h, h404, h200⟩
  · simp [kaggleGo, h]
  · by_cases h2 : status = 200
    · have hb := h200 h2
      subst h2 hb
      simp [kaggleGo, h]
    · simp [kaggleGo, h, h2, h404]

/-- Helper: a Kaggle POST event increments the Kaggle attempt count. -/
theorem kaggleAttemptCount_cons_post (i : ℕ) (l : List NetEvent) :
    kaggleAttemptCount (NetEvent.postKaggle i :: l) = kaggleAttemptCount l + 1 := rfl

/-- Helper: a backoff event leaves the Kaggle attempt count unchanged. -/
theorem kaggleAttemptCount_cons_backoff (s : ℕ) (l : List NetEvent) :
    kaggleAttemptCount (NetEvent.backoff s :: l) = kaggleAttemptCount l := rfl

/-- Helper: a local POST event leaves the Kaggle attempt count unchanged. -/
theorem kaggleAttemptCount_cons_local (l : List NetEvent) :
    kaggleAttemptCount (NetEvent.postLocal :: l) = kaggleAttemptCount l := rfl

/-- Helper: an enhanced POST event increments the enhanced attempt count. -/
theorem enhancedAttemptCount_cons_post (i : ℕ) (l : List NetEvent) :
    enhancedAttemptCount (NetEvent.postEnhanced i :: l) = enhancedAttemptCount l + 1 := rfl

/-- Helper: a backoff event leaves the enhanced attempt count unchanged. -/
theorem enhancedAttemptCount_cons_backoff (s : ℕ) (l : List NetEvent) :
    enhancedAttemptCount (NetEvent.backoff s :: l) = enhancedAttemptCount l := rfl

/-- Helper: the Kaggle retry loop makes at most `fuel` attempts. -/
theorem kaggleGo_count (url : String) (oracle : ℕ → KaggleOutcome)
    (localO : LocalOutcome) :
    ∀ fuel i, kaggleAttemptCount (kaggleGo url oracle localO fuel i).1 ≤ fuel := by
  intro fuel
  induction fuel with
  | zero =>
    intro i
    simp [kaggleGo, kaggleAttemptCount]
  | succ f ih =>
    intro i
    have hc := ih (i + 1)
    have hl := kaggleAttemptCount_local url localO
    rcases h : oracle i
    · rename_i status hasImage
      by_cases h2 : status = 200
      · subst h2
        cases hasImage
        · simp only [kaggleGo, h, beq_self_eq_true, if_true, Bool.false_eq_true,
            if_false, List.cons_append, List.nil_append, kaggleAttemptCount_cons_post]
          omega
        · simp only [kaggleGo, h, beq_self_eq_true, if_true,
            List.cons_append, List.nil_append, kaggleAttemptCount_cons_post, kaggleAttemptCount]
          simp
      · have h2b : (status == 200) = false := by
          simp [h2]
        by_cases h4 : status = 404 ∧ i < 3 - 1
        · obtain ⟨h4s, h4i⟩ := h4
          subst h4s
          simp only [kaggleGo, h, h2b, Bool.false_eq_true, if_false,
            beq_self_eq_true, Bool.true_and, decide_eq_true h4i, if_true,
            List.cons_append, List.nil_append, kaggleAttemptCount_cons_post, kaggleAttemptCount_cons_backoff]
          omega
        · have h4b : (status == 404 && decide (i < 3 - 1)) = false := by
            simp only [Bool.and_eq_false_iff, beq_eq_false_iff_ne, ne_eq,
              decide_eq_false_iff_not]
            tauto
          simp only [kaggleGo, h, h2b, h4b, Bool.false_eq_true, if_false,
            List.cons_append, List.nil_append, kaggleAttemptCount_cons_post]
          omega
    · by_cases hd : i < 3 - 1
      · simp only [kaggleGo, h, decide_eq_true hd, if_true,
          List.cons_append, List.nil_append, kaggleAttemptCount_cons_post, kaggleAttemptCount_cons_backoff]
        omega
      · have hdb : decide (i < 3 - 1) = false := decide_eq_false hd
        simp only [kaggleGo, h, hdb, Bool.false_eq_true, if_false,
          List.cons_append, List.nil_append, kaggleAttemptCount_cons_post]
        omega
    · simp only [kaggleGo, h, List.cons_append, List.nil_append, kaggleAttemptCount_cons_post]
      omega

/-- Helper: the enhanced retry loop makes at most `fuel` attempts. -/
theorem enhancedGo_count (oracle : ℕ → EnhancedOutcome) :
    ∀ fuel i, enhancedAttemptCount (enhancedGo oracle fuel i).1 ≤ fuel := by
  intro fuel
  induction fuel with
  | zero =>
    intro i
    simp [enhancedGo, enhancedAttemptCount]
  | succ f ih =>
    intro i
    have hc := ih (i + 1)
    rcases h : oracle i
    · simp only [enhancedGo, h, List.cons_append, List.nil_append, enhancedAttemptCount_cons_post, enhancedAttemptCount]
      simp
    all_goals
      by_cases hd : i < 3 - 1
      · simp only [enhancedGo, h, decide_eq_true hd, if_true,
          List.cons_append, List.nil_append, enhancedAttemptCount_cons_post, enhancedAttemptCount_cons_backoff]
        omega
      · have hdb : decide (i < 3 - 1) = false := decide_eq_false hd
        simp only [enhancedGo, h, hdb, Bool.false_eq_true, if_false,
          List.cons_append, List.nil_append, enhancedAttemptCount_cons_post, enhancedAttemptCount]
        simp

/-- Helper: in a full enhanced-loop run, a retryable outcome on a non-final
attempt (all earlier attempts having failed retryably) is followed by a 2-3
second backoff and the next attempt on the same backend. -/
theorem enhancedGo_run_backoff (oracle : ℕ → EnhancedOutcome) (i : ℕ)
    (hi : i < 2) (hprev : ∀ j, j < i → oracle j ≠ EnhancedOutcome.resp)
    (hne : oracle i ≠ EnhancedOutcome.resp) :
    ∃ s, 2 ≤ s ∧ s ≤ 3 ∧
      [NetEvent.postEnhanced i, NetEvent.backoff s, NetEvent.postEnhanced (i + 1)]
        <:+: (enhancedGo oracle 3 0).1 := by
  rcases i with _ | _ | i
  · obtain ⟨s, h2, h3, heq⟩ := enhancedGo_retry oracle 2 0 (by norm_num) hne
    have heq' : enhancedGo oracle 3 0 =
        (NetEvent.postEnhanced 0 :: NetEvent.backoff s ::
          (enhancedGo oracle 2 1).1, (enhancedGo oracle 2 1).2) := heq
    obtain ⟨tl, r, hh⟩ := enhancedGo_head oracle 1 1
    have hh' : enhancedGo oracle 2 1 = (NetEvent.postEnhanced 1 :: tl, r) := hh
    refine ⟨s, h2, h3, ?_⟩
    rw [heq']
    dsimp only
    rw [hh']
    dsimp only
    exact (List.prefix_append [NetEvent.postEnhanced 0, NetEvent.backoff s,
      NetEvent.postEnhanced 1] tl).isInfix
  · have h0 : oracle 0 ≠ EnhancedOutcome.resp := hprev 0 (by norm_num)
    obtain ⟨s0, _, _, heq0⟩ := enhancedGo_retry oracle 2 0 (by norm_num) h0
    have heq0' : enhancedGo oracle 3 0 =
        (NetEvent.postEnhanced 0 :: NetEvent.backoff s0 ::
          (enhancedGo oracle 2 1).1, (enhancedGo oracle 2 1).2) := heq0
    obtain ⟨s, h2, h3, heq1⟩ := enhancedGo_retry oracle 1 1 (by norm_num) hne
    have heq1' : enhancedGo oracle 2 1 =
        (NetEvent.postEnhanced 1 :: NetEvent.backoff s ::
          (enhancedGo oracle 1 2).1, (enhancedGo oracle 1 2).2) := heq1
    obtain ⟨tl, r, hh⟩ := enhancedGo_head oracle 0 2
    have hh' : enhancedGo oracle 1 2 = (NetEvent.postEnhanced 2 :: tl, r) := hh
    refine ⟨s, h2, h3, ?_⟩
    rw [heq0']
    dsimp only
    rw [heq1']
    dsimp only
    rw [hh']
    dsimp only
    exact List.infix_cons (List.infix_cons
      ((List.prefix_append [NetEvent.postEnhanced 1, NetEvent.backoff s,
        NetEvent.postEnhanced 2] tl).isInfix))
  · omega

/-- Helper: in a full Kaggle-loop run, a retryable outcome (timeout or 404)
on a non-final attempt (all earlier attempts retryable) is followed by a
2-second backoff and the next attempt on the same backend. -/
theorem kaggleGo_run_backoff (url : String) (oracle : ℕ → KaggleOutcome)
    (localO : LocalOutcome) (i : ℕ) (hi : i < 2)
    (hprev : ∀ j, j < i →
      oracle j = KaggleOutcome.timeout ∨ ∃ b, oracle j = KaggleOutcome.resp 404 b)
    (hr : oracle i = KaggleOutcome.timeout ∨ ∃ b, oracle i = KaggleOutcome.resp 404 b) :
    [NetEvent.postKaggle i, NetEvent.backoff 2, NetEvent.postKaggle (i + 1)]
      <:+: (kaggleGo url oracle localO 3 0).1 := by
  rcases i with _ | _ | i
  · have heq : kaggleGo url oracle localO 3 0 =
        (NetEvent.postKaggle 0 :: NetEvent.backoff 2 ::
          (kaggleGo url oracle localO 2 1).1,
         (kaggleGo url oracle localO 2 1).2) :=
      kaggleGo_retry url oracle localO 2 0 (by norm_num) hr
    obtain ⟨tl, r, hh⟩ := kaggleGo_head url oracle localO 1 1
    have hh' : kaggleGo url oracle localO 2 1 = (NetEvent.postKaggle 1 :: tl, r) := hh
    rw [heq]
    dsimp only
    rw [hh']
    dsimp only
    exact (List.prefix_append [NetEvent.postKaggle 0, NetEvent.backoff 2,
      NetEvent.postKaggle 1] tl).isInfix
  · have heq0 : kaggleGo url oracle localO 3 0 =
        (NetEvent.postKaggle 0 :: NetEvent.backoff 2 ::
          (kaggleGo url oracle localO 2 1).1,
         (kaggleGo url oracle localO 2 1).2) :=
      kaggleGo_retry url oracle localO 2 0 (by norm_num) (hprev 0 (by norm_num))
    have heq1 : kaggleGo url oracle localO 2 1 =
        (NetEvent.postKaggle 1 :: NetEvent.backoff 2 ::
          (kaggleGo url oracle localO 1 2).1,
         (kaggleGo url oracle localO 1 2).2) :=
      kaggleGo_retry url oracle localO 1 1 (by norm_num) hr
    obtain ⟨tl, r, hh⟩ := kaggleGo_head url oracle localO 0 2
    have hh' : kaggleGo url oracle localO 1 2 = (NetEvent.postKaggle 2 :: tl, r) := hh
    rw [heq0]
    dsimp only
    rw [heq1]
    dsimp only
    rw [hh']
    dsimp only
    exact List.infix_cons (List.infix_cons
      ((List.prefix_append [NetEvent.postKaggle 1, NetEvent.backoff 2,
        NetEvent.postKaggle 2] tl).isInfix))
  · omega

/-- Helper: in a full Kaggle-loop run, a non-retryable outcome (connection
error, non-404 error status, or 200 without an image field) on attempt `i`
(all earlier attempts retryable) ends the loop at once: the result is the
local fallback and exactly `i + 1` Kaggle attempts were made. -/
theorem kaggleGo_run_abort (url : String) (oracle : ℕ → KaggleOutcome)
    (localO : LocalOutcome) (i : ℕ) (hi : i ≤ 2)
    (hprev : ∀ j, j < i →
      oracle j = KaggleOutcome.timeout ∨ ∃ b, oracle j = KaggleOutcome.resp 404 b)
    (ha : oracle i = KaggleOutcome.connError ∨
      ∃ status hasImage, oracle i = KaggleOutcome.resp status hasImage ∧
        status ≠ 404 ∧ (status = 200 → hasImage = false)) :
    (kaggleGo url oracle localO 3 0).2 =
      KaggleResult.localFallback (localControlnetModel url localO).2 ∧
    kaggleAttemptCount (kaggleGo url oracle localO 3 0).1 = i + 1 := by
  rcases i with _ | _ | _ | i
  · have heq : kaggleGo url oracle localO 3 0 =
        (NetEvent.postKaggle 0 :: (localControlnetModel url localO).1,
         KaggleResult.localFallback (localControlnetModel url localO).2) :=
      kaggleGo_abort url oracle localO 2 0 ha
    rw [heq]
    exact ⟨rfl, by
      dsimp only
      rw [kaggleAttemptCount_cons_post, kaggleAttemptCount_local]⟩
  · have heq0 : kaggleGo url oracle localO 3 0 =
        (NetEvent.postKaggle 0 :: NetEvent.backoff 2 ::
          (kaggleGo url oracle localO 2 1).1,
         (kaggleGo url oracle localO 2 1).2) :=
      kaggleGo_retry url oracle localO 2 0 (by norm_num) (hprev 0 (by norm_num))
    have heq1 : kaggleGo url oracle localO 2 1 =
        (NetEvent.postKaggle 1 :: (localControlnetModel url localO).1,
         KaggleResult.localFallback (localControlnetModel url localO).2) :=
      kaggleGo_abort url oracle localO 1 1 ha
    rw [heq0]
    dsimp only
    rw [heq1]
    dsimp only
    refine ⟨rfl, ?_⟩
    rw [kaggleAttemptCount_cons_post, kaggleAttemptCount_cons_backoff,
      kaggleAttemptCount_cons_post, kaggleAttemptCount_local]
  · have heq0 : kaggleGo url oracle localO 3 0 =
        (NetEvent.postKaggle 0 :: NetEvent.backoff 2 ::
          (kaggleGo url oracle localO 2 1).1,
         (kaggleGo url oracle localO 2 1).2) :=
      kaggleGo_retry url oracle localO 2 0 (by norm_num) (hprev 0 (by norm_num))
    have heq1 : kaggleGo url oracle localO 2 1 =
        (NetEvent.postKaggle 1 :: NetEvent.backoff 2 ::
          (kaggleGo url oracle localO 1 2).1,
         (kaggleGo url oracle localO 1 2).2) :=
      kaggleGo_retry url oracle localO 1 1 (by norm_num) (hprev 1 (by norm_num))
    have heq2 : kaggleGo url oracle localO 1 2 =
        (NetEvent.postKaggle 2 :: (localControlnetModel url localO).1,
         KaggleResult.localFallback (localControlnetModel url localO).2) :=
      kaggleGo_abort url oracle localO 0 2 ha
    rw [heq0]
    dsimp only
    rw [heq1]
    dsimp only
    rw [heq2]
    dsimp only
    refine ⟨rfl, ?_⟩
    rw [kaggleAttemptCount_cons_post, kaggleAttemptCount_cons_backoff,
      kaggleAttemptCount_cons_post, kaggleAttemptCount_cons_backoff,
      kaggleAttemptCount_cons_post, kaggleAttemptCount_local]
  · omega

/-- C6 (amended): in `call_enhanced_controlnet_api`, a timeout or connection
error on a non-final attempt triggers a fixed 2-3 second backoff followed by
another attempt on the same backend, and at most 3 attempts are made; in
`call_kaggle_sdxl_api` the same holds for timeouts (2-second backoff, at most
3 attempts), but a connection error is never retried: it immediately falls
back to the local backend after exactly the attempts already made. -/
theorem retry_backoff_policy :
    (∀ (oracle : ℕ → EnhancedOutcome) (i : ℕ), i < 2 →
      (∀ j, j < i → oracle j ≠ EnhancedOutcome.resp) →
      (oracle i = EnhancedOutcome.timeout ∨ oracle i = EnhancedOutcome.connError) →
      ∃ s, 2 ≤ s ∧ s ≤ 3 ∧
        [NetEvent.postEnhanced i, NetEvent.backoff s, NetEvent.postEnhanced (i + 1)]
          <:+: (enhancedGo oracle 3 0).1) ∧
    (∀ oracle, enhancedAttemptCount (enhancedGo oracle 3 0).1 ≤ 3) ∧
    (∀ url (oracle : ℕ → KaggleOutcome) localO (i : ℕ), i < 2 →
      (∀ j, j < i →
        oracle j = KaggleOutcome.timeout ∨ ∃ b, oracle j = KaggleOutcome.resp 404 b) →
      oracle i = KaggleOutcome.timeout →
      [NetEvent.postKaggle i, NetEvent.backoff 2, NetEvent.postKaggle (i + 1)]
        <:+: (kaggleGo url oracle localO 3 0).1) ∧
    (∀ url (oracle : ℕ → KaggleOutcome) localO (i : ℕ), i ≤ 2 →
      (∀ j, j < i →
        oracle j = KaggleOutcome.timeout ∨ ∃ b, oracle j = KaggleOutcome.resp 404 b) →
      oracle i = KaggleOutcome.connError →
      (kaggleGo url oracle localO 3 0).2 =
        KaggleResult.localFallback (localControlnetModel url localO).2 ∧
      kaggleAttemptCount (kaggleGo url oracle localO 3 0).1 = i + 1) ∧
    (∀ url oracle localO, kaggleAttemptCount (kaggleGo url oracle localO 3 0).1 ≤ 3) := by
  refine ⟨?_, ?_, ?_, ?_, ?_⟩
  · intro oracle i hi hprev hio
    have hne : oracle i ≠ EnhancedOutcome.resp := by
      rcases hio with h | h <;> rw [h] <;> intro hc <;> cases hc
    exact enhancedGo_run_backoff oracle i hi hprev hne
  · intro oracle
    exact enhancedGo_count oracle 3 0
  · intro url oracle localO i hi hprev hio
    exact kaggleGo_run_backoff url oracle localO i hi hprev (Or.inl hio)
  · intro url oracle localO i hi hprev hio
    exact kaggleGo_run_abort url oracle localO i hi hprev (Or.inl hio)
  · intro url oracle localO
    exact kaggleGo_count url oracle localO 3 0

/-- Witness for `retry_backoff_policy`: a timeout on the first enhanced
attempt backs off and retries, and a connection error on the first Kaggle
attempt falls back to the local backend after one attempt. -/
theorem retry_backoff_policy_witness :
    (∃ s, 2 ≤ s ∧ s ≤ 3 ∧
      [NetEvent.postEnhanced 0, NetEvent.backoff s, NetEvent.postEnhanced 1]
        <:+: (enhancedGo (fun _ => EnhancedOutcome.timeout) 3 0).1) ∧
    ((kaggleGo "http://kaggle-backend" (fun _ => KaggleOutcome.connError)
        (LocalOutcome.resp 200) 3 0).2 =
      KaggleResult.localFallback
        (localControlnetModel "http://kaggle-backend" (LocalOutcome.resp 200)).2 ∧
     kaggleAttemptCount ((kaggleGo "http://kaggle-backend"
        (fun _ => KaggleOutcome.connError) (LocalOutcome.resp 200) 3 0).1) = 0 + 1) :=
  ⟨retry_backoff_policy.1 (fun _ => EnhancedOutcome.timeout) 0 (by norm_num)
      (fun j hj => absurd hj (Nat.not_lt_zero j)) (Or.inl rfl),
   retry_backoff_policy.2.2.2.1 "http://kaggle-backend"
      (fun _ => KaggleOutcome.connError) (LocalOutcome.resp 200) 0 (by norm_num)
      (fun j hj => absurd hj (Nat.not_lt_zero j)) rfl⟩

/-- Counterexample to C6 as stated: in `call_kaggle_sdxl_api` a connection
error on the first attempt produces no backoff and no further attempt on the
Kaggle backend — the trace is one Kaggle POST followed directly by the local
fallback POST. -/
theorem retry_backoff_policy_counterexample :
    (kaggleModel "http://kaggle-backend" (fun _ => KaggleOutcome.connError)
        (LocalOutcome.resp 200)).1 = [NetEvent.postKaggle 0, NetEvent.postLocal] ∧
    kaggleAttemptCount ((kaggleModel "http://kaggle-backend"
        (fun _ => KaggleOutcome.connError) (LocalOutcome.resp 200)).1) = 1 := by
  constructor
  · decide
  · decide

/-- C7 (amended): in `call_kaggle_sdxl_api`, a response whose shape does not
match the expected decoding — a 200 body without the image field, or an
error status other than 404 — is never retried: the backend is exhausted at
once and control falls back to the local backend; a 404 status, however, is
retried with a 2-second backoff on non-final attempts. -/
theorem protocol_error_no_retry :
    (∀ url (oracle : ℕ → KaggleOutcome) localO (i status : ℕ) (hasImage : Bool),
      i ≤ 2 →
      (∀ j, j < i →
        oracle j = KaggleOutcome.timeout ∨ ∃ b, oracle j = KaggleOutcome.resp 404 b) →
      oracle i = KaggleOutcome.resp status hasImage →
      status ≠ 404 → (status = 200 → hasImage = false) →
      (kaggleGo url oracle localO 3 0).2 =
        KaggleResult.localFallback (localControlnetModel url localO).2 ∧
      kaggleAttemptCount (kaggleGo url oracle localO 3 0).1 = i + 1) ∧
    (∀ url (oracle : ℕ → KaggleOutcome) localO (i : ℕ) (b : Bool), i < 2 →
      (∀ j, j < i →
        oracle j = KaggleOutcome.timeout ∨ ∃ b, oracle j = KaggleOutcome.resp 404 b) →
      oracle i = KaggleOutcome.resp 404 b →
      [NetEvent.postKaggle i, NetEvent.backoff 2, NetEvent.postKaggle (i + 1)]
        <:+: (kaggleGo url oracle localO 3 0).1) := by
  constructor
  · intro url oracle localO i status hasImage hi hprev hio h404 h200
    exact kaggleGo_run_abort url oracle localO i hi hprev
      (Or.inr ⟨status, hasImage, hio, h404, h200⟩)
  · intro url oracle localO i b hi hprev hio
    exact kaggleGo_run_backoff url oracle localO i hi hprev (Or.inr ⟨b, hio⟩)

/-- Witness for `protocol_error_no_retry`: a 500 response on the first
attempt exhausts the Kaggle backend after exactly one attempt. -/
theorem protocol_error_no_retry_witness :
    (kaggleGo "http://kaggle-backend" (fun _ => KaggleOutcome.resp 500 false)
        (LocalOutcome.resp 200) 3 0).2 =
      KaggleResult.localFallback
        (localControlnetModel "http://kaggle-backend" (LocalOutcome.resp 200)).2 ∧
    kaggleAttemptCount ((kaggleGo "http://kaggle-backend"
        (fun _ => KaggleOutcome.resp 500 false) (LocalOutcome.resp 200) 3 0).1) = 0 + 1 :=
  protocol_error_no_retry.1 "http://kaggle-backend"
    (fun _ => KaggleOutcome.resp 500 false) (LocalOutcome.resp 200) 0 500 false
    (by norm_num) (fun j hj => absurd hj (Nat.not_lt_zero j)) rfl
    (by norm_num) (fun h => absurd h (by norm_num))

/-- Counterexample to C7 as stated: a 404 response — an HTTP error status —
is retried twice by `call_kaggle_sdxl_api` before the fallback, rather than
exhausting the backend after the first attempt. -/
theorem protocol_error_no_retry_counterexample :
    (kaggleModel "http://kaggle-backend" (fun _ => KaggleOutcome.resp 404 false)
        (LocalOutcome.resp 200)).1 =
      [NetEvent.postKaggle 0, NetEvent.backoff 2, NetEvent.postKaggle 1,
       NetEvent.backoff 2, NetEvent.postKaggle 2, NetEvent.postLocal] := by
  decide
